import Mathlib

set_option maxRecDepth 100000

/-!
Shallow embedding of src/app.py (fin_report_analysis).

Numeric values are modelled by rationals extended with the IEEE special
values inf, -inf and nan, because pandas column sums are numpy floats and
numpy division by zero produces an infinity or nan instead of raising.
Python round(x, 2) is modelled as exact half-even rounding to hundredths
on rationals (binary-float representation error is idealised away).
UI calls (st.error, st.write, st.download_button) are modelled as an
event list; an uncaught Python exception is modelled by a crash result.
-/

/-- Extended value: a finite rational or an IEEE special value, the model
of a numpy float as far as the ratio pipeline observes it. -/
inductive EVal where
  | fin : ℚ → EVal
  | inf : EVal
  | neginf : EVal
  | nan : EVal
  deriving DecidableEq

/-- Division as numpy performs it on float scalars: a zero denominator
gives inf, -inf or nan depending on the numerator sign, never a raise. -/
def ediv (a b : ℚ) : EVal :=
  if b = 0 then
    if 0 < a then EVal.inf else if a < 0 then EVal.neginf else EVal.nan
  else EVal.fin (a / b)

/-- Multiplication by the literal 100, as in (profit / revenue) * 100. -/
def emul100 : EVal → EVal
  | EVal.fin q => EVal.fin (q * 100)
  | EVal.inf => EVal.inf
  | EVal.neginf => EVal.neginf
  | EVal.nan => EVal.nan

/-- Negation of a float value. -/
def negE : EVal → EVal
  | EVal.fin q => EVal.fin (-q)
  | EVal.inf => EVal.neginf
  | EVal.neginf => EVal.inf
  | EVal.nan => EVal.nan

/-- IEEE addition on float values as numpy performs it: nan absorbs,
opposite infinities give nan, an infinity dominates finite values. -/
def eadd : EVal → EVal → EVal
  | EVal.nan, _ => EVal.nan
  | _, EVal.nan => EVal.nan
  | EVal.inf, EVal.neginf => EVal.nan
  | EVal.neginf, EVal.inf => EVal.nan
  | EVal.inf, _ => EVal.inf
  | _, EVal.inf => EVal.inf
  | EVal.neginf, _ => EVal.neginf
  | _, EVal.neginf => EVal.neginf
  | EVal.fin a, EVal.fin b => EVal.fin (a + b)

/-- IEEE subtraction, used for total_assets - total_liabilities. -/
def esub (a b : EVal) : EVal := eadd a (negE b)

/-- IEEE division on float values: nan absorbs, an infinity over an
infinity is nan, an infinity over a finite value keeps its sign by the
sign of the denominator (a zero denominator counts as positive), a
finite value over an infinity is zero, and finite over finite falls to
ediv with its zero-denominator rule. -/
def edivE : EVal → EVal → EVal
  | EVal.nan, _ => EVal.nan
  | _, EVal.nan => EVal.nan
  | EVal.inf, EVal.inf => EVal.nan
  | EVal.inf, EVal.neginf => EVal.nan
  | EVal.neginf, EVal.inf => EVal.nan
  | EVal.neginf, EVal.neginf => EVal.nan
  | EVal.inf, EVal.fin b => if b < 0 then EVal.neginf else EVal.inf
  | EVal.neginf, EVal.fin b => if b < 0 then EVal.inf else EVal.neginf
  | EVal.fin _, EVal.inf => EVal.fin 0
  | EVal.fin _, EVal.neginf => EVal.fin 0
  | EVal.fin a, EVal.fin b => ediv a b

/-- Floor of a rational, computed from the normalised fraction. -/
def qfloor (q : ℚ) : ℤ := Int.fdiv q.num (Int.ofNat q.den)

/-- Round to the nearest integer, ties to the even neighbour, the rounding
rule of Python round. -/
def roundHalfEven (q : ℚ) : ℤ :=
  let f : ℤ := qfloor q
  let r : ℚ := q - (f : ℚ)
  if r < (1 : ℚ)/2 then f
  else if (1 : ℚ)/2 < r then f + 1
  else if f % 2 = 0 then f else f + 1

/-- Python round(x, 2) on a finite value. -/
def rnd2 (q : ℚ) : ℚ := ((roundHalfEven (q * 100) : ℚ)) / 100

/-- Python round(x, 2): finite values are rounded to hundredths, the
special values pass through unchanged. -/
def round2E : EVal → EVal
  | EVal.fin q => EVal.fin (rnd2 q)
  | EVal.inf => EVal.inf
  | EVal.neginf => EVal.neginf
  | EVal.nan => EVal.nan

/-- Split a character list at every dot, keeping empty pieces. -/
def splitDot : List Char → List (List Char)
  | [] => [[]]
  | c :: rest =>
    let r := splitDot rest
    if c = Char.ofNat 46 then [] :: r
    else
      match r with
      | [] => [[c]]
      | h :: t => (c :: h) :: t

/-- Decimal digits to a natural number. -/
def digitsToNat (l : List Char) : Nat :=
  l.foldl (fun a c => a * 10 + (c.toNat - 48)) 0

/-- Unsigned decimal mantissa: integer part and optional fractional
part, at least one digit overall. -/
def parseUnsigned (cs : List Char) : Option ℚ :=
  match splitDot cs with
  | [ip] =>
    if ip ≠ [] ∧ ip.all Char.isDigit then some ((digitsToNat ip : ℚ)) else none
  | [ip, fp] =>
    if (ip ≠ [] ∨ fp ≠ []) ∧ ip.all Char.isDigit ∧ fp.all Char.isDigit then
      some ((digitsToNat ip : ℚ) + (digitsToNat fp : ℚ) / ((10 : ℚ) ^ fp.length))
    else none
  | _ => none

/-- Strip whitespace from both ends, as the pandas numeric parser does
with padded cells. -/
def trimChars (cs : List Char) : List Char :=
  ((cs.dropWhile Char.isWhitespace).reverse.dropWhile Char.isWhitespace).reverse

/-- Split at the first exponent marker e or E: mantissa characters and,
when a marker occurs, the characters after it. -/
def splitExpChars : List Char → List Char × Option (List Char)
  | [] => ([], none)
  | c :: rest =>
    if c = Char.ofNat 101 ∨ c = Char.ofNat 69 then ([], some rest)
    else
      let p := splitExpChars rest
      (c :: p.1, p.2)

/-- Nonempty digit run to a natural number. -/
def parseDigitsNat (cs : List Char) : Option Nat :=
  if cs ≠ [] ∧ cs.all Char.isDigit then some (digitsToNat cs) else none

/-- Signed exponent of scientific notation. -/
def parseExp (cs : List Char) : Option ℤ :=
  match cs with
  | [] => none
  | c :: rest =>
    if c = Char.ofNat 45 then (parseDigitsNat rest).map (fun n => -(n : ℤ))
    else if c = Char.ofNat 43 then (parseDigitsNat rest).map (fun n => (n : ℤ))
    else (parseDigitsNat (c :: rest)).map (fun n => (n : ℤ))

/-- Scale a mantissa by a power of ten. -/
def scale10 (q : ℚ) (e : ℤ) : ℚ :=
  if 0 ≤ e then q * (10 : ℚ) ^ e.toNat else q / (10 : ℚ) ^ (-e).toNat

/-- The keyword inf, lowered. -/
def infKw : List Char := "inf".data

/-- The keyword infinity, lowered. -/
def infinityKw : List Char := "infinity".data

/-- The keyword nan, lowered. -/
def nanKw : List Char := "nan".data

/-- Magnitude of a numeric cell after the sign: the case-insensitive
keywords inf, infinity and nan, or a decimal mantissa with an optional
e or E exponent. -/
def parseMagnitude (cs : List Char) : Option EVal :=
  let low := cs.map Char.toLower
  if low = infKw ∨ low = infinityKw then some EVal.inf
  else if low = nanKw then some EVal.nan
  else
    match splitExpChars cs with
    | (m, none) => (parseUnsigned m).map EVal.fin
    | (m, some ecs) =>
      match parseUnsigned m, parseExp ecs with
      | some q, some e => some (EVal.fin (scale10 q e))
      | _, _ => none

/-- Model of pd.to_numeric with errors equal to coerce on one cell:
surrounding whitespace is stripped, an optional sign precedes either a
decimal numeral (optional fraction, optional e or E exponent), an inf
or infinity keyword, or the nan keyword; anything else coerces to NaN.
The nan keyword and an unparseable cell both give NaN, which is exactly
how the column sums treat them. -/
def parseCell (s : String) : EVal :=
  match trimChars s.data with
  | [] => EVal.nan
  | c :: rest =>
    if c = Char.ofNat 45 then
      match parseMagnitude rest with
      | some v => negE v
      | none => EVal.nan
    else if c = Char.ofNat 43 then
      match parseMagnitude rest with
      | some v => v
      | none => EVal.nan
    else
      match parseMagnitude (c :: rest) with
      | some v => v
      | none => EVal.nan

/-- Finite numeric value of a cell: some q when pd.to_numeric coerces
the cell to the finite float q, none when it yields NaN or an
infinity. -/
def parseNum (s : String) : Option ℚ :=
  match parseCell s with
  | EVal.fin q => some q
  | _ => none

/-- Finite contribution of one cell to a column sum; meaningful in
columns without infinite cells, where NaN cells are skipped, hence
contribute zero. -/
def cellVal (c : String) : ℚ := (parseNum c).getD 0

/-- Cell of a row at a column position, the empty string past the end. -/
def cellAt : List String → Nat → String
  | [], _ => ""
  | c :: _, 0 => c
  | _ :: r, j + 1 => cellAt r j

/-- An extracted table as pd.DataFrame(table[1:], columns=table[0])
builds it: a header row naming the columns and the data rows. -/
structure DataTable where
  header : List String
  rows : List (List String)
  deriving DecidableEq

/-- What one cell adds to its column sum: Series.sum skips NaN, so a
NaN cell adds the neutral zero; finite and infinite cells add their
value. -/
def cellE (c : String) : EVal :=
  match parseCell c with
  | EVal.nan => EVal.fin 0
  | v => v

/-- numeric_df.iloc[:, j].sum(): coerce every cell of column j and sum
with skipna, so NaN cells drop out and infinite cells make the sum
infinite (or nan when both infinities occur). -/
def colSumE (rows : List (List String)) (j : Nat) : EVal :=
  match rows with
  | [] => EVal.fin 0
  | r :: rest => eadd (cellE (cellAt r j)) (colSumE rest j)

/-- The rational shadow of a column sum, equal to the real sum whenever
the column holds no infinite cell (see colSumE_fin). -/
def colSumQ (rows : List (List String)) (j : Nat) : ℚ :=
  match rows with
  | [] => 0
  | r :: rest => cellVal (cellAt r j) + colSumQ rest j

/-- The column at position j holds no cell coercing to an infinity. -/
abbrev finiteCol (rows : List (List String)) (j : Nat) : Prop :=
  ∀ r ∈ rows, parseCell (cellAt r j) ≠ EVal.inf ∧ parseCell (cellAt r j) ≠ EVal.neginf

/-- Ordered ratio dictionary: insertion order equals computation order. -/
abbrev RatioSet := List (String × EVal)

/-- Message st.error displays when the indexing in the try block raises,
which happens exactly when the table has fewer than 5 columns. -/
def errCalcMsg : String := "Error calculating ratios: positional indexer out of bounds"

/-- calculate_financial_ratios of src/app.py. Returns the ratio
dictionary together with the list of st.error messages it displayed.
With at least 5 columns nothing in the try block raises (numpy division
by zero yields inf or nan, see ediv), so all three entries are inserted
in order; otherwise iloc raises, the except branch displays an error and
the dictionary stays empty. -/
def calculate_financial_ratios (t : DataTable) : RatioSet × List String :=
  if 5 ≤ t.header.length then
    let total_assets := colSumE t.rows 1
    let total_liabilities := colSumE t.rows 2
    let revenue := colSumE t.rows 3
    let profit := colSumE t.rows 4
    ([("Debt-to-Equity Ratio", round2E (edivE total_liabilities (esub total_assets total_liabilities))),
      ("Profit Margin", round2E (emul100 (edivE profit revenue))),
      ("Return on Assets (ROA)", round2E (emul100 (edivE profit total_assets)))],
     [])
  else
    ([], [errCalcMsg])

/-- Minimal JSON value model, enough structure for the response shape
candidates 0 content parts 0 text that call_gemini_api reads. -/
inductive Json where
  | str : String → Json
  | num : ℚ → Json
  | arr : List Json → Json
  | obj : List (String × Json) → Json
  | null : Json

/-- Dictionary lookup, none on a missing key or a non-object, the model
of a KeyError or TypeError that the except branch catches. -/
def Json.getKey : Json → String → Option Json
  | Json.obj kvs, k => (kvs.find? (fun p => p.1 = k)).map Prod.snd
  | _, _ => none

/-- List indexing, none out of range or on a non-array. -/
def Json.getIdx : Json → Nat → Option Json
  | Json.arr xs, i => xs.get? i
  | _, _ => none

/-- The leaf must be a string for the pipeline to use it as text. -/
def Json.asStr : Json → Option String
  | Json.str s => some s
  | _ => none

/-- The chained access response_json candidates 0 content parts 0 text;
none models any raise along the chain, caught by the except branch. -/
def extractCandidateText (j : Json) : Option String :=
  ((((((j.getKey "candidates").bind (fun c => c.getIdx 0)).bind
      (fun c => c.getKey "content")).bind
      (fun c => c.getKey "parts")).bind
      (fun p => p.getIdx 0)).bind
      (fun p => p.getKey "text")).bind Json.asStr

/-- Outcome of requests.post: either the call itself raises (network
failure, outside the try block of call_gemini_api) or a response object
arrives whose json() method either raises (modelled by error, caught)
or yields a JSON value. -/
inductive PostOutcome where
  | netFail : String → PostOutcome
  | resp : Except String Json → PostOutcome

/-- Placeholder text call_gemini_api returns on every handled failure. -/
def apiPlaceholder : String := "Error fetching insights."

/-- What the try block of call_gemini_api produces for a response that
arrived: the list of st.error messages displayed and the returned text. -/
def respPair : Except String Json → List String × String
  | Except.error e => (["Failed to parse API response: " ++ e], apiPlaceholder)
  | Except.ok j =>
    if (j.getKey "candidates").isSome then
      match extractCandidateText j with
      | some s => ([], s)
      | none => (["Failed to parse API response: bad shape"], apiPlaceholder)
    else
      (["API Error: unexpected response"], apiPlaceholder)

/-- call_gemini_api of src/app.py. A network failure in requests.post
happens before the try block, so it propagates as an uncaught exception
(the error case); everything after is handled inside try/except. -/
def callGeminiApi : PostOutcome → Except String (List String × String)
  | PostOutcome.netFail e => Except.error e
  | PostOutcome.resp r => Except.ok (respPair r)

/-- Fixed text before the report excerpt in the insights prompt. -/
def insightsHeader : List Char :=
  "Extract and summarize 5 key financial insights from the following annual report:\n".data

/-- Fixed text before the report excerpt in the analytics prompt. -/
def analyticsHeader : List Char :=
  "Analyze this financial report and provide 5 detailed financial analytics insights:\n".data

/-- Prompt of generate_financial_insights: the header followed by the
slice text[:4000] of the report text. -/
def insightsPrompt (text : List Char) : List Char := insightsHeader ++ text.take 4000

/-- Prompt of generate_analytics: the header followed by text[:4000]. -/
def analyticsPrompt (text : List Char) : List Char := analyticsHeader ++ text.take 4000

/-- Two-digit fractional part with a leading zero kept. -/
def natPad2 (n : Nat) : String := if n < 10 then "0" ++ toString n else toString n

/-- Decimal rendering of a ratio value as the f-string in
generate_pdf_report shows it; every value produced by round(x, 2) is a
multiple of one hundredth, other rationals fall back to the raw print. -/
def evalToString : EVal → String
  | EVal.inf => "inf"
  | EVal.neginf => "-inf"
  | EVal.nan => "nan"
  | EVal.fin q =>
    if (q * 100).den = 1 then
      let m : ℤ := (q * 100).num
      let s : String := if m < 0 then "-" else ""
      let a : Nat := m.natAbs
      let ip : Nat := a / 100
      let fr : Nat := a % 100
      if fr = 0 then s ++ toString ip ++ ".0"
      else if fr % 10 = 0 then s ++ toString ip ++ "." ++ toString (fr / 10)
      else s ++ toString ip ++ "." ++ natPad2 fr
    else toString q

/-- One pdf.cell call: append one line to the document. -/
def pdfCell (lines : List String) (s : String) : List String := lines ++ [s]

/-- generate_pdf_report of src/app.py, the document as its list of lines
in the order the pdf.cell calls emit them. -/
def generate_pdf_report (insights : String) (ratios : RatioSet) (analytics : String) :
    List String :=
  let d := pdfCell [] "Financial Report Summary"
  let d := pdfCell d "Key Insights:"
  let d := (insights.splitOn "\n").foldl (fun d i => pdfCell d ("- " ++ i)) d
  let d := pdfCell d "Financial Ratios:"
  let d := ratios.foldl (fun d kv => pdfCell d (kv.1 ++ ": " ++ evalToString kv.2)) d
  let d := pdfCell d "Advanced Analytics:"
  (analytics.splitOn "\n").foldl (fun d a => pdfCell d ("- " ++ a)) d

/-- Observable user-interface event of one pipeline run. Chart rendering
by generate_visualizations is pass-through to plotly and not modelled. -/
inductive Ev where
  | write : String → Ev
  | showRatios : RatioSet → Ev
  | err : String → Ev
  | download : List String → Ev
  deriving DecidableEq

/-- Result of running main: either it finishes with its event trace, or
an uncaught Python exception aborts it after the recorded events. -/
inductive MainRes where
  | crash : List Ev → String → MainRes
  | done : List Ev → MainRes
  deriving DecidableEq

/-- The message of the UnboundLocalError raised when generate_pdf_report
is reached with the loop variable ratios never assigned. -/
def unboundRatiosMsg : String :=
  "UnboundLocalError: local variable ratios referenced before assignment"

/-- One iteration of the for df in dfs loop of main: display any ratio
errors and the ratio dictionary, and rebind the local variable ratios. -/
def loopStep (p : List Ev × Option RatioSet) (df : DataTable) :
    List Ev × Option RatioSet :=
  (p.1 ++ ((calculate_financial_ratios df).2.map Ev.err)
      ++ [Ev.showRatios (calculate_financial_ratios df).1],
   some (calculate_financial_ratios df).1)

/-- main of src/app.py after a successful upload and extraction, as a
function of the extracted text, extracted tables and a network oracle
giving the outcome of each requests.post by its prompt. The analytics
call happens after the table loop; the loop is pure, so matching on the
second call outcome before folding does not reorder any effect. -/
def mainModel (text : List Char) (dfs : List DataTable)
    (net : List Char → PostOutcome) : MainRes :=
  match callGeminiApi (net (insightsPrompt text)) with
  | Except.error e => MainRes.crash [] e
  | Except.ok pr1 =>
    let evs1 := pr1.1.map Ev.err ++ [Ev.write pr1.2]
    let lp := dfs.foldl loopStep (evs1, none)
    match callGeminiApi (net (analyticsPrompt text)) with
    | Except.error e => MainRes.crash lp.1 e
    | Except.ok pr2 =>
      let evs3 := lp.1 ++ pr2.1.map Ev.err ++ [Ev.write pr2.2]
      match lp.2 with
      | none => MainRes.crash evs3 unboundRatiosMsg
      | some r =>
        MainRes.done (evs3 ++ [Ev.download (generate_pdf_report pr1.2 r pr2.2)])

/-- Sample table: one data row with total assets 1000, liabilities 400,
revenue 2000, profit 300. -/
def sampleT1000 : DataTable :=
  ⟨["Item", "Assets", "Liabilities", "Revenue", "Profit"],
   [["X", "1000", "400", "2000", "300"]]⟩

/-- Sample table whose assets and liabilities sums are both 400, so the
Debt-to-Equity denominator is zero. -/
def sample400 : DataTable :=
  ⟨["Item", "Assets", "Liabilities", "Revenue", "Profit"],
   [["X", "400", "400", "2000", "300"]]⟩

/-- Sample table with one column only. -/
def sampleSmall : DataTable := ⟨["only"], [["1"]]⟩

/-- Sample table whose assets and liabilities sums are both 400 and
whose revenue sums to zero: both the Debt-to-Equity and the Profit
Margin denominators vanish. -/
def sampleZeroDen : DataTable :=
  ⟨["Item", "Assets", "Liabilities", "Revenue", "Profit"],
   [["X", "400", "400", "0", "300"]]⟩

/-- A well-shaped Gemini response carrying the text Insight A. -/
def okLeaf : Json := Json.obj [("text", Json.str "Insight A")]

def okContent : Json := Json.obj [("parts", Json.arr [okLeaf])]

def okJson : Json :=
  Json.obj [("candidates", Json.arr [Json.obj [("content", okContent)]])]

/-- Network oracle that always answers with the well-shaped response. -/
def goodNet : List Char → PostOutcome := fun _ => PostOutcome.resp (Except.ok okJson)

/-- Network oracle whose requests.post always raises. -/
def downNet : List Char → PostOutcome :=
  fun _ => PostOutcome.netFail "requests.exceptions.ConnectionError"

/-- Network oracle whose responses always fail to parse as JSON. -/
def malformedNet : List Char → PostOutcome :=
  fun _ => PostOutcome.resp (Except.error "Expecting value")

/-- A response that parses as JSON but misses the expected shape: no
candidates key. -/
def noCandJson : Json := Json.obj [("error", Json.str "quota exceeded")]

/-- Network oracle whose responses parse but lack the expected shape. -/
def shapeNet : List Char → PostOutcome :=
  fun _ => PostOutcome.resp (Except.ok noCandJson)

/-- Events and placeholder shown at the start of main for an insights
call that returned. -/
def startEvs (pr : List String × String) : List Ev := pr.1.map Ev.err ++ [Ev.write pr.2]

theorem parseCell_zeroLit : parseCell "0" = EVal.fin 0 := by with_unfolding_all decide

/-- A row with every cell that coerces to NaN (unparseable, or the nan
keyword) replaced by the numeral 0. -/
def zeroRow (r : List String) : List String :=
  r.map (fun c => if parseCell c = EVal.nan then "0" else c)

/-- A table with every NaN-coercing cell replaced by the numeral 0. -/
def zeroCells (t : DataTable) : DataTable := ⟨t.header, t.rows.map zeroRow⟩

/-- IEEE sum of a list of float values, zero for the empty list. -/
def esumList : List EVal → EVal
  | [] => EVal.fin 0
  | v :: rest => eadd v (esumList rest)

theorem eadd_fin_zero (x : EVal) : eadd (EVal.fin 0) x = x := by
  cases x <;> simp [eadd]

theorem cellE_zeroRow (r : List String) (j : Nat) :
    cellE (cellAt (zeroRow r) j) = cellE (cellAt r j) := by
  induction r generalizing j with
  | nil => rfl
  | cons c tl ih =>
    cases j with
    | zero =>
      cases hp : parseCell c with
      | nan => simp [zeroRow, cellAt, hp, cellE, parseCell_zeroLit]
      | fin q => simp [zeroRow, cellAt, hp]
      | inf => simp [zeroRow, cellAt, hp]
      | neginf => simp [zeroRow, cellAt, hp]
    | succ n => simpa [zeroRow, cellAt] using ih n

theorem colSumE_zeroRows (rows : List (List String)) (j : Nat) :
    colSumE (rows.map zeroRow) j = colSumE rows j := by
  induction rows with
  | nil => rfl
  | cons r tl ih => simp [colSumE, cellE_zeroRow, ih]

theorem colSumE_skips_nan (rows : List (List String)) (j : Nat) :
    colSumE rows j =
      esumList ((rows.map (fun r => parseCell (cellAt r j))).filter
        (fun v => v != EVal.nan)) := by
  induction rows with
  | nil => rfl
  | cons r tl ih =>
    cases hc : parseCell (cellAt r j) with
    | nan => simp [colSumE, cellE, hc, ih, eadd_fin_zero, List.filter_cons]
    | fin q => simp [colSumE, cellE, hc, ih, esumList, List.filter_cons]
    | inf => simp [colSumE, cellE, hc, ih, esumList, List.filter_cons]
    | neginf => simp [colSumE, cellE, hc, ih, esumList, List.filter_cons]

theorem parseNum_isSome_not_infinite (c : String)
    (h : (parseNum c).isSome = true) :
    parseCell c ≠ EVal.inf ∧ parseCell c ≠ EVal.neginf := by
  cases hc : parseCell c <;> simp [parseNum, hc] at h ⊢

/-- In a column without infinite cells the extended sum is finite and
equals the rational shadow sum. -/
theorem colSumE_fin (rows : List (List String)) (j : Nat)
    (h : finiteCol rows j) :
    colSumE rows j = EVal.fin (colSumQ rows j) := by
  induction rows with
  | nil => rfl
  | cons r rest ih =>
    have hr := h r (List.mem_cons_self r rest)
    have hrest : finiteCol rest j := fun r2 h2 => h r2 (List.mem_cons_of_mem _ h2)
    cases hc : parseCell (cellAt r j) with
    | inf => exact absurd hc hr.1
    | neginf => exact absurd hc hr.2
    | fin q => simp [colSumE, colSumQ, ih hrest, cellE, hc, eadd, cellVal, parseNum]
    | nan => simp [colSumE, colSumQ, ih hrest, cellE, hc, eadd, cellVal, parseNum]

theorem esub_fin (a b : ℚ) : esub (EVal.fin a) (EVal.fin b) = EVal.fin (a - b) := by
  simp [esub, negE, eadd, sub_eq_add_neg]

theorem edivE_fin (a b : ℚ) : edivE (EVal.fin a) (EVal.fin b) = ediv a b := rfl

/-- With at least 5 columns and no infinite cell in columns 1 to 4, the
function returns the three entries computed from the rational column
sums, and no error. -/
theorem calcRatios_fin_sums (t : DataTable) (h5 : 5 ≤ t.header.length)
    (hfin : ∀ j ∈ ([1, 2, 3, 4] : List Nat), finiteCol t.rows j) :
    calculate_financial_ratios t =
      ([("Debt-to-Equity Ratio",
           round2E (ediv (colSumQ t.rows 2) (colSumQ t.rows 1 - colSumQ t.rows 2))),
        ("Profit Margin",
           round2E (emul100 (ediv (colSumQ t.rows 4) (colSumQ t.rows 3)))),
        ("Return on Assets (ROA)",
           round2E (emul100 (ediv (colSumQ t.rows 4) (colSumQ t.rows 1))))], []) := by
  have h1 := colSumE_fin t.rows 1 (hfin 1 (by simp))
  have h2 := colSumE_fin t.rows 2 (hfin 2 (by simp))
  have h3 := colSumE_fin t.rows 3 (hfin 3 (by simp))
  have h4 := colSumE_fin t.rows 4 (hfin 4 (by simp))
  simp [calculate_financial_ratios, h5, h1, h2, h3, h4, esub_fin, edivE_fin]

theorem foldl_pdfCell {α : Type} (f : α → String) (xs : List α) (d : List String) :
    List.foldl (fun d x => pdfCell d (f x)) d xs = d ++ xs.map f := by
  induction xs generalizing d with
  | nil => simp
  | cons a tl ih => rw [List.foldl_cons, ih]; simp [pdfCell]

/-- The assembled document, flattened: title block, insight bullets,
ratio lines, analytics bullets, in emission order. -/
theorem pdf_report_lines (insights : String) (ratios : RatioSet) (analytics : String) :
    generate_pdf_report insights ratios analytics =
      ["Financial Report Summary", "Key Insights:"]
        ++ (insights.splitOn "\n").map (fun s => "- " ++ s)
        ++ ["Financial Ratios:"]
        ++ ratios.map (fun kv => kv.1 ++ ": " ++ evalToString kv.2)
        ++ ["Advanced Analytics:"]
        ++ (analytics.splitOn "\n").map (fun s => "- " ++ s) := by
  simp only [generate_pdf_report]
  rw [foldl_pdfCell (fun i => "- " ++ i),
      foldl_pdfCell (fun kv : String × EVal => kv.1 ++ ": " ++ evalToString kv.2),
      foldl_pdfCell (fun a => "- " ++ a)]
  simp [pdfCell]

theorem loop_snd (l : List DataTable) (d : DataTable) :
    ∀ p : List Ev × Option RatioSet,
      (List.foldl loopStep p (l ++ [d])).2 = some (calculate_financial_ratios d).1 := by
  induction l with
  | nil => intro p; rfl
  | cons a tl ih =>
    intro p
    simp only [List.cons_append, List.foldl_cons]
    exact ih (loopStep p a)

theorem loop_evs_mono (l : List DataTable) (e : Ev) :
    ∀ p : List Ev × Option RatioSet, e ∈ p.1 → e ∈ (List.foldl loopStep p l).1 := by
  induction l with
  | nil => intro p h; exact h
  | cons a tl ih =>
    intro p h
    simp only [List.foldl_cons]
    refine ih (loopStep p a) ?_
    simp only [loopStep, List.mem_append]
    exact Or.inl (Or.inl h)

theorem loop_evs_show (l : List DataTable) (d : DataTable) :
    ∀ p : List Ev × Option RatioSet, d ∈ l →
      Ev.showRatios (calculate_financial_ratios d).1 ∈ (List.foldl loopStep p l).1 := by
  induction l with
  | nil => intro p h; cases h
  | cons a tl ih =>
    intro p h
    simp only [List.foldl_cons]
    rcases List.mem_cons.mp h with h1 | h2
    · subst h1
      refine loop_evs_mono tl _ (loopStep p d) ?_
      simp [loopStep]
    · exact ih (loopStep p a) h2

/-- Shape of a full successful run of main: both remote calls returned a
response object, at least one table was extracted, so main finishes with
the loop events, the analytics events and one download of the report
assembled from the last ratio dictionary. -/
theorem mainModel_done_eq (text : List Char) (l : List DataTable) (d : DataTable)
    (net : List Char → PostOutcome) (x y : Except String Json)
    (hx : net (insightsPrompt text) = PostOutcome.resp x)
    (hy : net (analyticsPrompt text) = PostOutcome.resp y) :
    mainModel text (l ++ [d]) net =
      MainRes.done (((l ++ [d]).foldl loopStep (startEvs (respPair x), none)).1
          ++ (respPair y).1.map Ev.err ++ [Ev.write (respPair y).2]
          ++ [Ev.download (generate_pdf_report (respPair x).2
                (calculate_financial_ratios d).1 (respPair y).2)]) := by
  unfold mainModel
  rw [hx, hy]
  simp only [callGeminiApi, startEvs]
  rw [loop_snd l d]


/-- C1: for every table with at least 5 columns whose cells in columns
1 to 4 all parse as numbers, calculate_financial_ratios returns the
three named entries Debt-to-Equity, Profit Margin and Return on Assets,
in that fixed order, each value the 2-decimal rounding of its formula,
and displays no error. -/
theorem calcRatios_three_fixed_entries (t : DataTable)
    (h5 : 5 ≤ t.header.length)
    (hp : ∀ r ∈ t.rows, ∀ j ∈ ([1, 2, 3, 4] : List Nat),
      (parseNum (cellAt r j)).isSome = true) :
    calculate_financial_ratios t =
      ([("Debt-to-Equity Ratio",
           round2E (ediv (colSumQ t.rows 2) (colSumQ t.rows 1 - colSumQ t.rows 2))),
        ("Profit Margin",
           round2E (emul100 (ediv (colSumQ t.rows 4) (colSumQ t.rows 3)))),
        ("Return on Assets (ROA)",
           round2E (emul100 (ediv (colSumQ t.rows 4) (colSumQ t.rows 1))))], []) := by
  refine calcRatios_fin_sums t h5 ?_
  intro j hj r hr
  exact parseNum_isSome_not_infinite _ (hp r hr j hj)

/-- Witness for C1: on the spec table with sums assets 1000, liabilities
400, revenue 2000, profit 300, the entries are 0.67, 15.0 and 30.0. -/
theorem calcRatios_three_fixed_entries_witness :
    (5 ≤ sampleT1000.header.length) ∧
    calculate_financial_ratios sampleT1000 =
      ([("Debt-to-Equity Ratio", EVal.fin (67/100)),
        ("Profit Margin", EVal.fin 15),
        ("Return on Assets (ROA)", EVal.fin 30)], []) :=
  ⟨by with_unfolding_all decide,
   (calcRatios_three_fixed_entries sampleT1000 (by with_unfolding_all decide)
      (by with_unfolding_all decide)).trans (by with_unfolding_all decide)⟩

/-- C2 counterexample: on a table whose assets and liabilities sums are
both 400, the Debt-to-Equity entry is the value infinity, not an
explicit unavailable or failed value, and no failure is reported; so the
claim that a zero denominator yields a reported unavailable value is
false on the code. -/
theorem calcRatios_divzero_counterexample :
    (calculate_financial_ratios sample400).1 =
      [("Debt-to-Equity Ratio", EVal.inf),
       ("Profit Margin", EVal.fin 15),
       ("Return on Assets (ROA)", EVal.fin 75)] ∧
    (calculate_financial_ratios sample400).2 = [] := by
  with_unfolding_all decide

/-- C2 amended: with at least 5 columns and finite column sums, no
exception is raised and no failure is reported: all three entries are
returned with their formula values, the remaining ratios always
computed; and when a denominator sums to zero, for either ratio (assets
equal to liabilities for Debt-to-Equity, zero revenue for Profit
Margin), the affected entry value is plus infinity, minus infinity or
NaN according to the sign of its numerator, never an unavailable
marker. -/
theorem calcRatios_divzero_general (t : DataTable)
    (h5 : 5 ≤ t.header.length)
    (hfin : ∀ j ∈ ([1, 2, 3, 4] : List Nat), finiteCol t.rows j) :
    calculate_financial_ratios t =
      ([("Debt-to-Equity Ratio",
           round2E (ediv (colSumQ t.rows 2) (colSumQ t.rows 1 - colSumQ t.rows 2))),
        ("Profit Margin",
           round2E (emul100 (ediv (colSumQ t.rows 4) (colSumQ t.rows 3)))),
        ("Return on Assets (ROA)",
           round2E (emul100 (ediv (colSumQ t.rows 4) (colSumQ t.rows 1))))], []) ∧
    (colSumQ t.rows 1 = colSumQ t.rows 2 →
      round2E (ediv (colSumQ t.rows 2) (colSumQ t.rows 1 - colSumQ t.rows 2)) =
        if 0 < colSumQ t.rows 2 then EVal.inf
        else if colSumQ t.rows 2 < 0 then EVal.neginf else EVal.nan) ∧
    (colSumQ t.rows 3 = 0 →
      round2E (emul100 (ediv (colSumQ t.rows 4) (colSumQ t.rows 3))) =
        if 0 < colSumQ t.rows 4 then EVal.inf
        else if colSumQ t.rows 4 < 0 then EVal.neginf else EVal.nan) := by
  refine ⟨calcRatios_fin_sums t h5 hfin, ?_, ?_⟩
  · intro hAL
    rw [hAL, sub_self]
    by_cases hpos : 0 < colSumQ t.rows 2
    · simp [ediv, hpos, round2E]
    · by_cases hneg : colSumQ t.rows 2 < 0
      · simp [ediv, hpos, hneg, round2E]
      · simp [ediv, hpos, hneg, round2E]
  · intro hR0
    rw [hR0]
    by_cases hpos : 0 < colSumQ t.rows 4
    · simp [ediv, hpos, round2E, emul100]
    · by_cases hneg : colSumQ t.rows 4 < 0
      · simp [ediv, hpos, hneg, round2E, emul100]
      · simp [ediv, hpos, hneg, round2E, emul100]

/-- Witness for the amended C2 on a table whose Debt-to-Equity and
Profit Margin denominators are both zero with positive numerators: both
entries come out infinity, the third is still computed. -/
theorem calcRatios_divzero_general_witness :
    ((5 ≤ sampleZeroDen.header.length) ∧
      (∀ j ∈ ([1, 2, 3, 4] : List Nat), finiteCol sampleZeroDen.rows j) ∧
      colSumQ sampleZeroDen.rows 1 = colSumQ sampleZeroDen.rows 2 ∧
      colSumQ sampleZeroDen.rows 3 = 0) ∧
    calculate_financial_ratios sampleZeroDen =
      ([("Debt-to-Equity Ratio", EVal.inf),
        ("Profit Margin", EVal.inf),
        ("Return on Assets (ROA)", EVal.fin 75)], []) :=
  ⟨⟨by with_unfolding_all decide, by with_unfolding_all decide,
    by with_unfolding_all decide, by with_unfolding_all decide⟩,
   ((calcRatios_divzero_general sampleZeroDen (by with_unfolding_all decide)
      (by with_unfolding_all decide)).1).trans (by with_unfolding_all decide)⟩

/-- C3: cells that coerce to NaN (unparseable cells, or the nan
keyword, which pandas treats identically in the sum) are excluded from
every column sum, which equals the IEEE sum over the non-NaN cells
only; replacing each such cell by the numeral 0 leaves the whole result
unchanged, so they never abort the computation. Cells pandas parses,
including scientific notation, whitespace-padded numerals and the
infinity keywords, are kept at their parsed value. -/
theorem calcRatios_unparseable_skipped (t : DataTable) :
    calculate_financial_ratios (zeroCells t) = calculate_financial_ratios t ∧
    ∀ j, colSumE t.rows j =
      esumList ((t.rows.map (fun r => parseCell (cellAt r j))).filter
        (fun v => v != EVal.nan)) := by
  constructor
  · by_cases h5 : 5 ≤ t.header.length
    · simp [calculate_financial_ratios, zeroCells, h5, colSumE_zeroRows]
    · simp [calculate_financial_ratios, zeroCells, h5]
  · intro j
    exact colSumE_skips_nan t.rows j

/-- On every malformed arrived response (one that displayed an error:
JSON parse failure, missing candidates key, or a bad extraction chain)
the returned text is the placeholder. -/
theorem respPair_placeholder (r : Except String Json)
    (h : (respPair r).1 ≠ []) : (respPair r).2 = apiPlaceholder := by
  cases r with
  | error e => rfl
  | ok j =>
    by_cases hk : (Json.getKey j "candidates").isSome
    · cases hx : extractCandidateText j with
      | some s => simp [respPair, hk, hx] at h
      | none => simp [respPair, hk, hx]
    · simp [respPair, hk]

theorem mem_pdf_ratio_heading (insights : String) (ratios : RatioSet) (analytics : String) :
    "Financial Ratios:" ∈ generate_pdf_report insights ratios analytics := by
  rw [pdf_report_lines]
  simp

theorem mem_pdf_ratio_line (insights : String) (ratios : RatioSet) (analytics : String)
    (kv : String × EVal) (hkv : kv ∈ ratios) :
    (kv.1 ++ ": " ++ evalToString kv.2) ∈ generate_pdf_report insights ratios analytics := by
  rw [pdf_report_lines]
  refine List.mem_append.mpr (Or.inl ?_)
  refine List.mem_append.mpr (Or.inl ?_)
  refine List.mem_append.mpr (Or.inr ?_)
  exact List.mem_map_of_mem _ hkv

/-- C4 counterexample: a network failure in requests.post happens before
the try block of call_gemini_api, so it propagates: the run crashes at
the very first remote call with no message displayed, no ratio loop and
no report, falsifying the claim that every remote-model failure leaves
the pipeline alive. -/
theorem gemini_netfail_counterexample :
    mainModel [] [sampleT1000] downNet =
      MainRes.crash [] "requests.exceptions.ConnectionError" := rfl

/-- C4 amended: for a remote-model failure in which requests.post
returned but the response is malformed in any handled way, meaning
call_gemini_api displayed an error for it: its JSON fails to parse, the
parsed JSON lacks the candidates key, or the candidates chain fails on
extraction, the pipeline does not crash: every displayed error message
appears in the trace, the insights section degrades to the placeholder
text, and ratio computation and report assembly still proceed, the
report containing the ratio heading and every ratio line of the last
table. A network failure that raises inside requests.post is not
covered: it crashes the pipeline. -/
theorem gemini_badresponse_degrades (text : List Char) (l : List DataTable) (d : DataTable)
    (net : List Char → PostOutcome) (x y : Except String Json)
    (hx : net (insightsPrompt text) = PostOutcome.resp x)
    (hy : net (analyticsPrompt text) = PostOutcome.resp y)
    (hbad : (respPair x).1 ≠ []) :
    ∃ evs rep,
      mainModel text (l ++ [d]) net = MainRes.done evs ∧
      (∀ m ∈ (respPair x).1, Ev.err m ∈ evs) ∧
      Ev.write apiPlaceholder ∈ evs ∧
      Ev.download rep ∈ evs ∧
      "Financial Ratios:" ∈ rep ∧
      ∀ kv ∈ (calculate_financial_ratios d).1,
        (kv.1 ++ ": " ++ evalToString kv.2) ∈ rep := by
  refine ⟨_,
    generate_pdf_report (respPair x).2
      (calculate_financial_ratios d).1 (respPair y).2,
    mainModel_done_eq text l d net x y hx hy, ?_, ?_, ?_, ?_, ?_⟩
  · intro m hm
    refine List.mem_append.mpr (Or.inl ?_)
    refine List.mem_append.mpr (Or.inl ?_)
    refine List.mem_append.mpr (Or.inl ?_)
    refine loop_evs_mono (l ++ [d]) _ _ ?_
    simp only [startEvs, List.mem_append]
    exact Or.inl (List.mem_map_of_mem _ hm)
  · rw [← respPair_placeholder x hbad]
    refine List.mem_append.mpr (Or.inl ?_)
    refine List.mem_append.mpr (Or.inl ?_)
    refine List.mem_append.mpr (Or.inl ?_)
    refine loop_evs_mono (l ++ [d]) _ _ ?_
    simp [startEvs]
  · simp
  · exact mem_pdf_ratio_heading _ _ _
  · intro kv hkv
    exact mem_pdf_ratio_line _ _ _ kv hkv

/-- Witness for the amended C4 at a concrete response that parses as
JSON but misses the expected shape: no candidates key. -/
theorem gemini_badresponse_degrades_witness :
    (shapeNet (insightsPrompt []) = PostOutcome.resp (Except.ok noCandJson) ∧
      shapeNet (analyticsPrompt []) = PostOutcome.resp (Except.ok noCandJson) ∧
      (respPair (Except.ok noCandJson)).1 ≠ []) ∧
    (∃ evs rep,
      mainModel [] ([] ++ [sampleT1000]) shapeNet = MainRes.done evs ∧
      (∀ m ∈ (respPair (Except.ok noCandJson)).1, Ev.err m ∈ evs) ∧
      Ev.write apiPlaceholder ∈ evs ∧
      Ev.download rep ∈ evs ∧
      "Financial Ratios:" ∈ rep ∧
      ∀ kv ∈ (calculate_financial_ratios sampleT1000).1,
        (kv.1 ++ ": " ++ evalToString kv.2) ∈ rep) :=
  ⟨⟨rfl, rfl, by with_unfolding_all decide⟩,
   gemini_badresponse_degrades [] [] sampleT1000 shapeNet (Except.ok noCandJson)
     (Except.ok noCandJson) rfl rfl (by with_unfolding_all decide)⟩

/-- C5: with text extraction succeeded but zero extracted tables, the
insights and analytics sections are still generated and displayed, but
main then reaches generate_pdf_report with the loop variable ratios
never assigned: the run aborts with an UnboundLocalError and no
downloadable report is produced, instead of completing as claimed. -/
theorem zero_tables_unbound_crash :
    mainModel [] [] goodNet =
      MainRes.crash [Ev.write "Insight A", Ev.write "Insight A"] unboundRatiosMsg := rfl

/-- C6: each of the two prompts is its fixed header followed by the
slice text[:4000]: the included excerpt has length at most 4000 and is
an initial segment of the report text. -/
theorem prompts_truncate (text : List Char) :
    insightsPrompt text = insightsHeader ++ text.take 4000 ∧
    analyticsPrompt text = analyticsHeader ++ text.take 4000 ∧
    (text.take 4000).length ≤ 4000 ∧
    text.take 4000 ++ text.drop 4000 = text := by
  refine ⟨rfl, rfl, ?_, List.take_append_drop _ _⟩
  rw [List.length_take]
  exact min_le_left _ _

/-- C7: the assembled report document is, in this fixed order, the
title block, the insights one bullet per split line, the ratio lines
formatted name colon value, and the analytics one bullet per split
line. -/
theorem report_fixed_order (insights : String) (ratios : RatioSet) (analytics : String) :
    generate_pdf_report insights ratios analytics =
      ["Financial Report Summary", "Key Insights:"]
        ++ (insights.splitOn "\n").map (fun s => "- " ++ s)
        ++ ["Financial Ratios:"]
        ++ ratios.map (fun kv => kv.1 ++ ": " ++ evalToString kv.2)
        ++ ["Advanced Analytics:"]
        ++ (analytics.splitOn "\n").map (fun s => "- " ++ s) :=
  pdf_report_lines insights ratios analytics

/-- C8 counterexample: on a one-column table calculate_financial_ratios
displays an error message through the UI, a side effect, so the claim
that it performs no side effects on every table is false. -/
theorem calcRatios_side_effect_counterexample :
    (calculate_financial_ratios sampleSmall).2 = [errCalcMsg] := by
  with_unfolding_all decide

/-- C8 amended: calculate_financial_ratios never mutates its input and
is a deterministic function of the table; on every table with at least
5 columns it performs no side effect at all, but on narrower tables the
except branch displays an error message through the UI. -/
theorem calcRatios_no_effect_wide (t : DataTable) (h5 : 5 ≤ t.header.length) :
    (calculate_financial_ratios t).2 = [] := by
  simp [calculate_financial_ratios, h5]

/-- Witness for the amended C8. -/
theorem calcRatios_no_effect_wide_witness :
    (5 ≤ sampleT1000.header.length) ∧ (calculate_financial_ratios sampleT1000).2 = [] :=
  ⟨by with_unfolding_all decide,
   calcRatios_no_effect_wide sampleT1000 (by with_unfolding_all decide)⟩

/-- C9: on every table with fewer than 5 columns the iloc indexing
raises, the except branch catches it, and the function returns the
empty ratio dictionary together with the displayed error message: no
exception escapes. -/
theorem calcRatios_few_columns (t : DataTable) (h : t.header.length < 5) :
    calculate_financial_ratios t = ([], [errCalcMsg]) := by
  simp [calculate_financial_ratios, Nat.not_le.mpr h]

/-- Witness for C9 on the one-column table. -/
theorem calcRatios_few_columns_witness :
    (sampleSmall.header.length < 5) ∧
    calculate_financial_ratios sampleSmall = ([], [errCalcMsg]) :=
  ⟨by with_unfolding_all decide,
   calcRatios_few_columns sampleSmall (by with_unfolding_all decide)⟩

/-- C10: when more than one table is extracted, each loop iteration
displays its ratio dictionary in the UI and rebinds the variable, so
the single report download holds exactly the ratios of the last table,
while every table had its ratios displayed. -/
theorem report_uses_last_table (text : List Char) (l : List DataTable) (d : DataTable)
    (net : List Char → PostOutcome) (x y : Except String Json)
    (hx : net (insightsPrompt text) = PostOutcome.resp x)
    (hy : net (analyticsPrompt text) = PostOutcome.resp y) :
    ∃ evs0,
      mainModel text (l ++ [d]) net =
        MainRes.done (evs0 ++ [Ev.download
          (generate_pdf_report (respPair x).2
            (calculate_financial_ratios d).1 (respPair y).2)]) ∧
      ∀ df ∈ l ++ [d], Ev.showRatios (calculate_financial_ratios df).1 ∈ evs0 := by
  refine ⟨((l ++ [d]).foldl loopStep (startEvs (respPair x), none)).1
      ++ (respPair y).1.map Ev.err ++ [Ev.write (respPair y).2],
    mainModel_done_eq text l d net x y hx hy, ?_⟩
  intro df hdf
  refine List.mem_append.mpr (Or.inl ?_)
  refine List.mem_append.mpr (Or.inl ?_)
  exact loop_evs_show (l ++ [d]) df _ hdf

/-- Witness for C10 on a two-table run with a well-shaped remote
response. -/
theorem report_uses_last_table_witness :
    (goodNet (insightsPrompt []) = PostOutcome.resp (Except.ok okJson) ∧
      goodNet (analyticsPrompt []) = PostOutcome.resp (Except.ok okJson)) ∧
    (∃ evs0,
      mainModel [] ([sample400] ++ [sampleT1000]) goodNet =
        MainRes.done (evs0 ++ [Ev.download
          (generate_pdf_report (respPair (Except.ok okJson)).2
            (calculate_financial_ratios sampleT1000).1 (respPair (Except.ok okJson)).2)]) ∧
      ∀ df ∈ [sample400] ++ [sampleT1000],
        Ev.showRatios (calculate_financial_ratios df).1 ∈ evs0) :=
  ⟨⟨rfl, rfl⟩,
   report_uses_last_table [] [sample400] sampleT1000 goodNet
     (Except.ok okJson) (Except.ok okJson) rfl rfl⟩
